import Mathlib

/-!
Shallow embedding of the route-to-weather recommendation pipeline of
`what-should-i-wear` (frontend/src/utils/gpxParser.js and
frontend/src/StandAloneApp.jsx), together with proofs about the claims of
the specification.

JS numbers are modelled as `ℚ` (exact arithmetic), timestamps as epoch
milliseconds (`Int`), and JS arrays as `List`.  `Math.round x` is
`⌊x + 1/2⌋` (JS rounds half-way cases toward +∞).  Fallible or diverging
paths return `Option`.
-/

namespace WhatToWear

/-- JS `Math.round`: floor of `x + 1/2` (half-way cases go up, as in JS). -/
def jsRound (x : ℚ) : ℤ := ⌊x + 1/2⌋

/-- JS `Math.min(...xs)` over a spread non-empty array: fold of `min` over the
elements.  (`Math.min()` of an empty spread is `Infinity`; the `[]` case is
unreachable at every use site below, and `0` stands in for it.) -/
def jsMinList (l : List ℚ) : ℚ :=
  match l with
  | [] => 0
  | a :: rest => rest.foldl min a

/-- JS `Math.max(...xs)` over a spread non-empty array, as in `jsMinList`. -/
def jsMaxList (l : List ℚ) : ℚ :=
  match l with
  | [] => 0
  | a :: rest => rest.foldl max a

/-- One weather record as built by `fetchWeatherData` / the aggregator in
StandAloneApp.jsx.  Plain per-hour samples leave `temperatureMin`,
`temperatureMax` as `none` and `isAggregated` as `false`; aggregated slots
set all three. -/
structure WeatherSample where
  location : String
  time : Int
  temperature : ℚ
  temperatureMin : Option ℚ
  temperatureMax : Option ℚ
  windSpeed : ℚ
  precipitationChance : ℚ
  humidity : ℚ
  weatherCode : Int
  isAggregated : Bool
deriving DecidableEq

/-- An entry of `EFFORT_LEVELS` in StandAloneApp.jsx. -/
structure Effort where
  id : String
  name : String
  description : String
  heatFactor : ℚ
deriving DecidableEq

/-- `EFFORT_LEVELS` from StandAloneApp.jsx lines 26-31. -/
def EFFORT_LEVELS : List Effort :=
  [⟨"easy", "Easy", "Conversational pace", 0.7⟩,
   ⟨"endurance", "Endurance", "Steady, sustained effort", 1⟩,
   ⟨"tempo", "Tempo", "Comfortably hard", 1.3⟩,
   ⟨"all-out", "All Out", "Maximum effort", 1.6⟩]

/-- A recommended clothing layer, as pushed by the `get*Layers` functions. -/
structure LayerItem where
  type : String
  item : String
  reason : String
deriving DecidableEq

/-! ## Point sampler (gpxParser.js, `samplePoints`) -/

/-- `step` of `samplePoints`: `Math.floor((allPoints.length - 1) / (targetCount - 1))`. -/
def sampleStep (n targetCount : Nat) : Nat := (n - 1) / (targetCount - 1)

/-- The indices visited by the `for (let i = step; i < allPoints.length - step; i += step)`
loop of `samplePoints`.  The loop visits `step, 2*step, 3*step, …` while the index
stays below `length - step`; since `step ≥ 1` on this path the guard is monotone in
the iteration count, so the visited indices are exactly the `(k+1)*step` (for
`k < length`, an upper bound large enough to cover every iteration) that satisfy
the guard, in increasing order. -/
def sampleLoopIdxs (n step : Nat) : List Nat :=
  ((List.range n).map (fun k => (k + 1) * step)).filter (fun i => decide (i < n - step))

/-- All indices collected by `samplePoints` on its main path:
index 0 first, then the loop indices, then the final index `length - 1`. -/
def sampleIdxs (n targetCount : Nat) : List Nat :=
  0 :: (sampleLoopIdxs n (sampleStep n targetCount) ++ [n - 1])

/-- `samplePoints` from gpxParser.js lines 151-166, for a JS integer
`targetCount ≥ 0`.  JS division by zero does not throw: with
`targetCount = 1` the step is `(length-1)/0 = Infinity`, the loop guard
`Infinity < length - Infinity` is immediately false and the function returns
`[first, last]`; with `targetCount = 0` (and a non-empty input longer than 0)
the step is `-(length-1)` (or `-0` for a single point) and the loop never
terminates, which we model as `none`. -/
def samplePoints {α : Type} (allPoints : List α) (targetCount : Nat) : Option (List α) :=
  if allPoints.length ≤ targetCount then
    some allPoints
  else if targetCount = 0 then
    none
  else if targetCount = 1 then
    some (allPoints.take 1 ++ allPoints.drop (allPoints.length - 1))
  else
    some ((sampleIdxs allPoints.length targetCount).filterMap (fun i => allPoints[i]?))

/-! ## Forecast fetcher (StandAloneApp.jsx, `fetchWeatherData` / `generateMockWeather`) -/

/-- The `data.hourly` arrays of a successful Open-Meteo response, with `time`
as epoch milliseconds.  A missing/short entry read past the end of an array is
modelled by `List.getD` below. -/
structure HourlyData where
  time : List Int
  temperature2m : List ℚ
  precipitationProbability : List ℚ
  windSpeed10m : List ℚ
  relativeHumidity2m : List ℚ
  weatherCode : List Int
deriving DecidableEq

/-- `generateMockWeather` from StandAloneApp.jsx lines 177-190.  `rand` is the
stream of `Math.random()` results in call order: sample `i` consumes
`rand (5*i)` (baseTemp), `rand (5*i+1)` (temperature jitter), `rand (5*i+2)`
(wind), `rand (5*i+3)` (precipitation), `rand (5*i+4)` (humidity). -/
def generateMockWeather (locName : String) (startMs : Int) (rand : Nat → ℚ) :
    List WeatherSample :=
  (List.range 5).map (fun i =>
    let baseTemp := 50 + rand (5 * i) * 30
    { location := locName
      time := startMs + i * 3600000
      temperature := (jsRound (baseTemp + (rand (5 * i + 1) - 0.5) * 10) : ℚ)
      temperatureMin := none
      temperatureMax := none
      windSpeed := (jsRound (5 + rand (5 * i + 2) * 15) : ℚ)
      precipitationChance := (jsRound (rand (5 * i + 3) * 100) : ℚ)
      humidity := (jsRound (40 + rand (5 * i + 4) * 40) : ℚ)
      weatherCode := 0
      isAggregated := false })

/-- `fetchWeatherData` from StandAloneApp.jsx lines 66-113, as a function of
the provider response.  `provider = none` models every thrown path of the
`try` block (network failure, geocoding failure, malformed response); the
`catch` then returns the mock samples.  On success, for each of the 5 hourly
slots the code takes the first provider hour with timestamp `≥ startMs + i*1h`
(`findIndex`); a slot whose search fails (`-1`) is silently skipped. -/
def fetchWeatherData (provider : Option HourlyData) (locName : String)
    (startMs : Int) (rand : Nat → ℚ) : List WeatherSample :=
  match provider with
  | none => generateMockWeather locName startMs rand
  | some data =>
    (List.range 5).filterMap (fun (i : Nat) =>
      let currentTime := startMs + (i : Int) * 3600000
      match data.time.findIdx? (fun t => decide (currentTime ≤ t)) with
      | none => none
      | some hourIndex =>
        some { location := locName
               time := currentTime
               temperature := (jsRound (data.temperature2m.getD hourIndex 0) : ℚ)
               temperatureMin := none
               temperatureMax := none
               windSpeed := (jsRound (data.windSpeed10m.getD hourIndex 0) : ℚ)
               precipitationChance := data.precipitationProbability.getD hourIndex 0
               humidity := data.relativeHumidity2m.getD hourIndex 0
               weatherCode := data.weatherCode.getD hourIndex 0
               isAggregated := false })

/-! ## Multi-point aggregator (StandAloneApp.jsx, `fetchGPXWeatherData` lines 134-159) -/

/-- The samples collected for hour-slot `hourIndex`:
`allWeatherResults.map(result => result.weatherData[hourIndex]).filter(Boolean)`.
Reading past the end of an array gives `undefined`, which `filter(Boolean)`
drops; every present sample is an object, hence truthy. -/
def collectedAt (allWeatherResults : List (List WeatherSample)) (hourIndex : Nat) :
    List WeatherSample :=
  allWeatherResults.filterMap (fun result => result[hourIndex]?)

/-- The aggregated record pushed for one hour slot whose collected list is
`w :: rest` (non-empty), following lines 141-157. -/
def aggregateSlot (w : WeatherSample) (rest : List WeatherSample) : WeatherSample :=
  let hourDataPoints := w :: rest
  let temps := hourDataPoints.map (·.temperature)
  { location := "GPX Route"
    time := w.time
    temperature := (jsRound ((jsMinList temps + jsMaxList temps) / 2) : ℚ)
    temperatureMin := some (jsMinList temps)
    temperatureMax := some (jsMaxList temps)
    windSpeed := jsMaxList (hourDataPoints.map (·.windSpeed))
    precipitationChance := jsMaxList (hourDataPoints.map (·.precipitationChance))
    humidity := (jsRound
      ((hourDataPoints.foldl (fun sum h => sum + h.humidity) 0) / hourDataPoints.length) : ℚ)
    weatherCode := w.weatherCode
    isAggregated := true }

/-- The aggregation loop of `fetchGPXWeatherData` (lines 134-159): for
`hourIndex` in `0..4`, push an aggregated record when at least one per-point
sequence has a sample at that index. -/
def aggregateWeather (allWeatherResults : List (List WeatherSample)) :
    List WeatherSample :=
  (List.range 5).filterMap (fun hourIndex =>
    match collectedAt allWeatherResults hourIndex with
    | [] => none
    | w :: rest => some (aggregateSlot w rest))

/-- The largest per-point sequence length (spec-side helper used to state the
corrected aggregation-length law; not part of the source). -/
def maxSeqLength (allWeatherResults : List (List WeatherSample)) : Nat :=
  allWeatherResults.foldr (fun r m => max r.length m) 0

/-- Agreement of two aggregated slots on every field except `time` and
`weatherCode` (spec-side relation used to state the corrected
order-independence law; not part of the source). -/
def slotAgrees (a b : WeatherSample) : Prop :=
  a.location = b.location ∧ a.temperature = b.temperature ∧
  a.temperatureMin = b.temperatureMin ∧ a.temperatureMax = b.temperatureMax ∧
  a.windSpeed = b.windSpeed ∧ a.precipitationChance = b.precipitationChance ∧
  a.humidity = b.humidity ∧ a.isAggregated = b.isAggregated

/-! ## Recommendation engine (StandAloneApp.jsx, `generateRecommendations`) -/

/-- `weatherData.length > 0 && weatherData[0].isAggregated` (line 195). -/
def isAggregatedData (weatherData : List WeatherSample) : Bool :=
  match weatherData with
  | [] => false
  | w :: _ => w.isAggregated

/-- `w.temperatureMin || w.temperature` (line 200): JS `||` yields the right
operand when the left one is falsy, i.e. missing (`undefined`) or equal to 0. -/
def tempOrMin (w : WeatherSample) : ℚ :=
  match w.temperatureMin with
  | none => w.temperature
  | some v => if v = 0 then w.temperature else v

/-- `avgTemp` of `generateRecommendations` (lines 195-204): coldest
`temperatureMin || temperature` for aggregated data, otherwise the arithmetic
mean of `temperature` (`reduce` then division by the length). -/
def avgTempUsed (weatherData : List WeatherSample) : ℚ :=
  if isAggregatedData weatherData then
    jsMinList (weatherData.map tempOrMin)
  else
    (weatherData.foldl (fun sum w => sum + w.temperature) 0) / weatherData.length

/-- `feltTemp = avgTemp + (effort.heatFactor - 1) * 15` (line 211). -/
def feltTempFor (weatherData : List WeatherSample) (effort : Effort) : ℚ :=
  avgTempUsed weatherData + (effort.heatFactor - 1) * 15

/-- `getRunningLayers` (lines 225-256). -/
def getRunningLayers (temp wind : ℚ) (rain : Bool) : List LayerItem :=
  (if temp < 32 then
    [⟨"Base Layer", "Thermal long-sleeve top", "Cold protection"⟩,
     ⟨"Base Layer", "Thermal tights", "Leg warmth"⟩,
     ⟨"Mid Layer", "Light insulated vest", "Core warmth"⟩,
     ⟨"Accessories", "Running gloves", "Hand protection"⟩,
     ⟨"Accessories", "Headband or beanie", "Ear warmth"⟩]
  else if temp < 50 then
    [⟨"Base Layer", "Long-sleeve tech shirt", "Moisture wicking"⟩,
     ⟨"Base Layer", "Running tights or pants", "Leg comfort"⟩,
     ⟨"Accessories", "Light gloves", "Hand warmth"⟩]
  else if temp < 65 then
    [⟨"Base Layer", "Short-sleeve tech shirt", "Breathability"⟩,
     ⟨"Base Layer", "Running shorts or capris", "Mobility"⟩]
  else
    [⟨"Base Layer", "Lightweight singlet", "Maximum cooling"⟩,
     ⟨"Base Layer", "Running shorts", "Comfort"⟩,
     ⟨"Accessories", "Visor or hat", "Sun protection"⟩])
  ++ (if wind > 15 then [⟨"Outer Layer", "Windbreaker jacket", "Wind protection"⟩] else [])
  ++ (if rain then [⟨"Outer Layer", "Waterproof running jacket", "Rain protection"⟩] else [])

/-- `getMountainBikeLayers` (lines 258-285). -/
def getMountainBikeLayers (temp wind : ℚ) (rain : Bool) : List LayerItem :=
  (if temp < 40 then
    [⟨"Base Layer", "Thermal long-sleeve jersey", "Cold protection"⟩,
     ⟨"Base Layer", "Padded thermal bib tights", "Comfort and warmth"⟩,
     ⟨"Mid Layer", "Softshell jacket", "Insulation"⟩,
     ⟨"Accessories", "Winter cycling gloves", "Hand warmth"⟩,
     ⟨"Accessories", "Thermal headband", "Ear protection"⟩]
  else if temp < 60 then
    [⟨"Base Layer", "Long-sleeve MTB jersey", "Trail protection"⟩,
     ⟨"Base Layer", "Padded shorts with knee warmers", "Flexibility"⟩,
     ⟨"Accessories", "Light gloves", "Grip and protection"⟩]
  else
    [⟨"Base Layer", "Short-sleeve MTB jersey", "Breathability"⟩,
     ⟨"Base Layer", "Padded shorts", "Comfort"⟩,
     ⟨"Accessories", "Full-finger gloves", "Trail protection"⟩])
  ++ (if rain then [⟨"Outer Layer", "Waterproof MTB jacket", "Weather protection"⟩] else [])
  ++ [⟨"Safety", "Helmet", "Essential safety"⟩,
      ⟨"Safety", "Eye protection", "Debris protection"⟩]

/-- `getRoadBikeLayers` (lines 287-318). -/
def getRoadBikeLayers (temp wind : ℚ) (rain : Bool) : List LayerItem :=
  (if temp < 45 then
    [⟨"Base Layer", "Thermal cycling jersey", "Warmth"⟩,
     ⟨"Base Layer", "Thermal bib tights", "Leg warmth"⟩,
     ⟨"Mid Layer", "Wind vest", "Core protection"⟩,
     ⟨"Accessories", "Winter cycling gloves", "Hand warmth"⟩,
     ⟨"Accessories", "Thermal cap under helmet", "Head warmth"⟩]
  else if temp < 65 then
    [⟨"Base Layer", "Long-sleeve cycling jersey", "Comfort"⟩,
     ⟨"Base Layer", "Bib shorts with leg warmers", "Adaptability"⟩,
     ⟨"Accessories", "Light gloves", "Grip"⟩]
  else
    [⟨"Base Layer", "Short-sleeve cycling jersey", "Cooling"⟩,
     ⟨"Base Layer", "Bib shorts", "Comfort"⟩,
     ⟨"Accessories", "Cycling cap", "Sun protection"⟩])
  ++ (if wind > 15 then [⟨"Outer Layer", "Wind jacket", "Aerodynamics"⟩] else [])
  ++ (if rain then [⟨"Outer Layer", "Waterproof cycling jacket", "Rain protection"⟩] else [])
  ++ [⟨"Safety", "Helmet", "Essential safety"⟩,
      ⟨"Safety", "Cycling glasses", "Eye protection"⟩]

/-- `getDownhillSkiLayers` (lines 320-343). -/
def getDownhillSkiLayers (temp wind : ℚ) (rain : Bool) : List LayerItem :=
  (if temp < 20 then
    [⟨"Base Layer", "Heavyweight thermal top", "Extreme cold"⟩,
     ⟨"Base Layer", "Heavyweight thermal bottoms", "Leg warmth"⟩,
     ⟨"Mid Layer", "Insulated ski jacket", "Core warmth"⟩,
     ⟨"Outer Layer", "Waterproof ski pants", "Snow protection"⟩,
     ⟨"Accessories", "Insulated ski gloves", "Hand warmth"⟩,
     ⟨"Accessories", "Balaclava or neck gaiter", "Face protection"⟩]
  else
    [⟨"Base Layer", "Midweight thermal top", "Moisture management"⟩,
     ⟨"Base Layer", "Midweight thermal bottoms", "Comfort"⟩,
     ⟨"Mid Layer", "Lightweight insulated jacket", "Warmth"⟩,
     ⟨"Outer Layer", "Waterproof ski pants", "Snow protection"⟩,
     ⟨"Accessories", "Ski gloves", "Hand protection"⟩,
     ⟨"Accessories", "Neck gaiter", "Versatility"⟩])
  ++ [⟨"Safety", "Ski helmet", "Essential safety"⟩,
      ⟨"Safety", "Ski goggles", "Vision protection"⟩]

/-- `getBackcountrySkiLayers` (lines 345-367). -/
def getBackcountrySkiLayers (temp wind : ℚ) (rain : Bool) : List LayerItem :=
  (if temp < 20 then
    [⟨"Base Layer", "Merino wool top", "Temperature regulation"⟩,
     ⟨"Base Layer", "Merino wool bottoms", "Warmth and breathability"⟩,
     ⟨"Mid Layer", "Lightweight down jacket", "Packable warmth"⟩,
     ⟨"Outer Layer", "Hardshell jacket", "Weather protection"⟩,
     ⟨"Outer Layer", "Hardshell pants", "Snow protection"⟩]
  else
    [⟨"Base Layer", "Lightweight merino top", "Breathability"⟩,
     ⟨"Base Layer", "Lightweight merino bottoms", "Comfort"⟩,
     ⟨"Mid Layer", "Fleece or softshell", "Active insulation"⟩,
     ⟨"Outer Layer", "Softshell pants", "Mobility"⟩])
  ++ [⟨"Accessories", "Lightweight gloves", "Hand warmth while touring"⟩,
      ⟨"Accessories", "Beanie or headband", "Head warmth"⟩,
      ⟨"Safety", "Ski helmet", "Safety"⟩,
      ⟨"Safety", "Ski goggles + sunglasses", "Variable conditions"⟩]

/-- `getNordicSkiLayers` (lines 369-394). -/
def getNordicSkiLayers (temp wind : ℚ) (rain : Bool) : List LayerItem :=
  (if temp < 20 then
    [⟨"Base Layer", "Thermal racing suit or top/bottom", "Warmth"⟩,
     ⟨"Mid Layer", "Light vest", "Core warmth"⟩,
     ⟨"Accessories", "Insulated gloves", "Hand warmth"⟩,
     ⟨"Accessories", "Headband or light beanie", "Ear protection"⟩]
  else if temp < 40 then
    [⟨"Base Layer", "XC ski suit or jersey/tights", "Aerodynamics"⟩,
     ⟨"Accessories", "Light gloves", "Grip and warmth"⟩,
     ⟨"Accessories", "Headband", "Ear warmth"⟩]
  else
    [⟨"Base Layer", "Lightweight XC top", "Cooling"⟩,
     ⟨"Base Layer", "Lightweight XC tights", "Mobility"⟩,
     ⟨"Accessories", "Thin gloves", "Pole grip"⟩])
  ++ (if wind > 15 ∨ rain then
    [⟨"Outer Layer", "Wind vest or light shell", "Weather protection"⟩] else [])
  ++ [⟨"Accessories", "Sunglasses or light goggles", "Eye protection"⟩]

/-- The property names a JS read `obj[key]` on a plain object literal resolves
through the prototype chain when `key` is not an own property: the members of
`Object.prototype` as present in web browsers (the four Annex B accessor pairs
included).  Every one of these resolves to a function — or, for `__proto__`,
to `Object.prototype` itself — hence to a truthy value. -/
def objectPrototypeMembers : List String :=
  ["constructor", "hasOwnProperty", "isPrototypeOf", "propertyIsEnumerable",
   "toLocaleString", "toString", "valueOf", "__proto__", "__defineGetter__",
   "__defineSetter__", "__lookupGetter__", "__lookupSetter__"]

/-- The value of `layers[activity] || []` in `generateRecommendations`: either
a layer-item list (an own property of the object literal, or the `[]` that
`||` substitutes for the falsy `undefined`), or — when `activity` names a
member of `Object.prototype` — the truthy inherited member, which `||`
short-circuits on and the function returns as is. -/
inductive RecResult where
  | items : List LayerItem → RecResult
  | protoMember : String → RecResult
deriving DecidableEq

/-- The `layers[activity] || []` dispatch of `generateRecommendations`
(lines 213-222): a key lookup in the six-entry object literal.  An own
property (one of the six ids) yields its layer list; a key naming an
`Object.prototype` member yields that truthy inherited member; every other
key reads `undefined`, which `||` replaces with the empty list. -/
def layersFor (activity : String) (feltTemp maxWind : ℚ) (hasRain : Bool) :
    RecResult :=
  if activity = "run" then .items (getRunningLayers feltTemp maxWind hasRain)
  else if activity = "mountain-bike" then
    .items (getMountainBikeLayers feltTemp maxWind hasRain)
  else if activity = "road-bike" then
    .items (getRoadBikeLayers feltTemp maxWind hasRain)
  else if activity = "downhill-ski" then
    .items (getDownhillSkiLayers feltTemp maxWind hasRain)
  else if activity = "backcountry-ski" then
    .items (getBackcountrySkiLayers feltTemp maxWind hasRain)
  else if activity = "nordic-ski" then
    .items (getNordicSkiLayers feltTemp maxWind hasRain)
  else if activity ∈ objectPrototypeMembers then .protoMember activity
  else .items []

/-- `generateRecommendations` (lines 193-223).  When
`EFFORT_LEVELS.find(e => e.id === effortLevel)` misses, the JS dereference
`effort.heatFactor` throws a TypeError, modelled as `none`. -/
def generateRecommendations (activity : String) (weatherData : List WeatherSample)
    (effortLevel : String) : Option RecResult :=
  match EFFORT_LEVELS.find? (fun e => e.id == effortLevel) with
  | none => none
  | some effort =>
    let feltTemp := feltTempFor weatherData effort
    let maxWind := jsMaxList (weatherData.map (·.windSpeed))
    let hasRain := weatherData.any (fun w => decide (w.precipitationChance > 30))
    some (layersFor activity feltTemp maxWind hasRain)

/-! ## General list lemmas -/

theorem length_filterMap_of_isSome {α β : Type} (f : α → Option β) (l : List α)
    (h : ∀ a ∈ l, (f a).isSome) : (l.filterMap f).length = l.length := by
  induction l with
  | nil => rfl
  | cons a l ih =>
    have ha : (f a).isSome := h a (List.mem_cons_self a l)
    cases hfa : f a with
    | none => rw [hfa] at ha; simp at ha
    | some b =>
      rw [List.filterMap_cons, hfa]
      simp only [List.length_cons]
      rw [ih (fun x hx => h x (List.mem_cons_of_mem a hx))]

theorem length_filterMap_eq_length_filter {α β : Type} (f : α → Option β) (l : List α) :
    (l.filterMap f).length = (l.filter (fun a => (f a).isSome)).length := by
  induction l with
  | nil => rfl
  | cons a l ih =>
    cases hfa : f a <;>
      simp [List.filterMap_cons, hfa, List.filter_cons, ih]

theorem isSome_getElem? {α : Type} (l : List α) (i : Nat) :
    (l[i]?).isSome ↔ i < l.length := by
  constructor
  · intro hs
    by_contra hlt
    rw [List.getElem?_len_le (by omega)] at hs
    simp at hs
  · intro h
    rw [List.getElem?_eq_getElem h]
    rfl

theorem filter_range_eq_range_min (p : Nat → Bool) (m : Nat)
    (hp : ∀ k, p k = decide (k < m)) (n : Nat) :
    (List.range n).filter p = List.range (min n m) := by
  induction n with
  | zero => simp
  | succ n ih =>
    rw [List.range_succ, List.filter_append, ih]
    by_cases hnm : n < m
    · have h1 : min (n + 1) m = min n m + 1 := by omega
      have h2 : min n m = n := by omega
      rw [h1, h2, List.range_succ]
      simp [hp n, hnm, h2]
    · have h1 : min (n + 1) m = min n m := by omega
      simp [h1, hp n, hnm]

theorem filterMap_getElem?_sublist {α : Type} :
    ∀ (idxs : List Nat) (l : List α), idxs.Pairwise (· < ·) →
      (idxs.filterMap (fun i => l[i]?)).Sublist l
  | [], l, _ => by simp
  | i :: rest, l, h => by
    have hrest : rest.Pairwise (· < ·) := h.of_cons
    have hgt : ∀ j ∈ rest, i < j := fun j hj => List.rel_of_pairwise_cons h hj
    rw [List.filterMap_cons]
    cases hg : l[i]? with
    | none => exact filterMap_getElem?_sublist rest l hrest
    | some a =>
      have hi : i < l.length := by
        by_contra hc
        rw [List.getElem?_len_le (by omega)] at hg
        exact Option.noConfusion hg
      have ha : a = l[i] := by
        rw [List.getElem?_eq_getElem hi] at hg
        exact (Option.some_inj.mp hg).symm
      have heq : rest.filterMap (fun j => l[j]?) =
          rest.filterMap (fun j => (l.drop (i + 1))[j - (i + 1)]?) := by
        apply List.filterMap_congr
        intro j hj
        rw [List.getElem?_drop]
        congr 1
        have := hgt j hj
        omega
      have heq2 : rest.filterMap (fun j => (l.drop (i + 1))[j - (i + 1)]?) =
          (rest.map (fun j => j - (i + 1))).filterMap (fun k => (l.drop (i + 1))[k]?) := by
        rw [List.filterMap_map]
        rfl
      have hpair : (rest.map (fun j => j - (i + 1))).Pairwise (· < ·) := by
        rw [List.pairwise_map]
        refine List.Pairwise.imp_of_mem ?_ hrest
        intro a b hamem hbmem hab
        have h1 := hgt a hamem
        omega
      have hsub := filterMap_getElem?_sublist (rest.map (fun j => j - (i + 1)))
        (l.drop (i + 1)) hpair
      rw [heq, heq2]
      have h1 : (a :: (rest.map (fun j => j - (i + 1))).filterMap
          (fun k => (l.drop (i + 1))[k]?)).Sublist (l.drop i) := by
        rw [List.drop_eq_getElem_cons hi, ← ha]
        exact hsub.cons₂ a
      exact h1.trans (List.drop_sublist i l)
termination_by idxs _ _ => idxs.length
decreasing_by
  all_goals simp [List.length_map]
  all_goals omega

/-! ## Point sampler analysis -/

theorem sampleLoop_guard_iff (n step k : Nat) (hstep : 0 < step) (hsn : step + 1 ≤ n) :
    ((k + 1) * step < n - step ↔ k < (n - 1) / step - 1) := by
  have hdiv : (k + 2) ≤ (n - 1) / step ↔ (k + 2) * step ≤ n - 1 :=
    Nat.le_div_iff_mul_le hstep
  have hmul : (k + 2) * step = (k + 1) * step + step := by ring
  omega

theorem sampleLoopIdxs_eq (n step : Nat) (hstep : 0 < step) (hsn : step + 1 ≤ n) :
    sampleLoopIdxs n step =
      (List.range ((n - 1) / step - 1)).map (fun k => (k + 1) * step) := by
  unfold sampleLoopIdxs
  rw [List.filter_map]
  have hp : ∀ k, ((fun i => decide (i < n - step)) ∘ (fun k => (k + 1) * step)) k =
      decide (k < (n - 1) / step - 1) := by
    intro k
    simp only [Function.comp]
    exact decide_eq_decide.mpr (sampleLoop_guard_iff n step k hstep hsn)
  rw [filter_range_eq_range_min _ _ hp n]
  have hqn : (n - 1) / step - 1 ≤ n := by
    have := Nat.div_le_self (n - 1) step
    omega
  rw [Nat.min_eq_right hqn]

theorem sampleStep_pos (n t : Nat) (ht : 2 ≤ t) (hn : t < n) : 0 < sampleStep n t := by
  have h := (Nat.le_div_iff_mul_le (show 0 < t - 1 by omega)).mpr
    (show 1 * (t - 1) ≤ n - 1 by omega)
  unfold sampleStep
  omega

theorem sampleIdxs_pairwise (n t : Nat) (ht : 2 ≤ t) (hn : t < n) :
    (sampleIdxs n t).Pairwise (· < ·) := by
  have hstep : 0 < sampleStep n t := sampleStep_pos n t ht hn
  unfold sampleIdxs
  set step := sampleStep n t with hstepdef
  have hmem : ∀ i ∈ sampleLoopIdxs n step, 0 < i ∧ i < n - step := by
    intro i hi
    unfold sampleLoopIdxs at hi
    rcases List.mem_filter.mp hi with ⟨hmap, hlt⟩
    rcases List.mem_map.mp hmap with ⟨k, _, rfl⟩
    refine ⟨by positivity, by simpa using hlt⟩
  constructor
  · intro j hj
    rcases List.mem_append.mp hj with hj | hj
    · exact (hmem j hj).1
    · simp only [List.mem_singleton] at hj
      omega
  · rw [List.pairwise_append]
    refine ⟨?_, by simp, ?_⟩
    · unfold sampleLoopIdxs
      apply List.Pairwise.filter
      rw [List.pairwise_map]
      apply List.Pairwise.imp ?_ (List.pairwise_lt_range n)
      intro a b hab
      exact (Nat.mul_lt_mul_right hstep).mpr (by omega)
    · intro i hi j hj
      simp only [List.mem_singleton] at hj
      have h1 := (hmem i hi).2
      omega

theorem sampleIdxs_lt (n t : Nat) (ht : 2 ≤ t) (hn : t < n) :
    ∀ i ∈ sampleIdxs n t, i < n := by
  intro i hi
  unfold sampleIdxs at hi
  rcases List.mem_cons.mp hi with rfl | hi
  · omega
  rcases List.mem_append.mp hi with hi | hi
  · unfold sampleLoopIdxs at hi
    rcases List.mem_filter.mp hi with ⟨_, hlt⟩
    have := of_decide_eq_true hlt
    omega
  · simp only [List.mem_singleton] at hi
    omega

/-- C1 (amended): on the main path (`targetCount ≥ 2 < L`) the sample keeps the
original first and last points and relative order (it is a sublist of the
input), but its length is only bounded by `2*targetCount - 2`, not by
`targetCount`. -/
theorem samplePoints_sound {α : Type} (l : List α) (t : Nat)
    (ht : 2 ≤ t) (hlen : t < l.length) :
    ∃ r, samplePoints l t = some r ∧ r.head? = l.head? ∧ r.getLast? = l.getLast? ∧
      r.Sublist l ∧ r.length ≤ 2 * t - 2 := by
  set n := l.length with hn
  have hn3 : 3 ≤ n := by omega
  have hstep : 0 < sampleStep n t := sampleStep_pos n t ht hlen
  have hstepn : sampleStep n t ≤ n - 1 := Nat.div_le_self _ _
  set step := sampleStep n t with hstepdef
  set q := (n - 1) / step with hq
  have hq1 : 1 ≤ q := by
    rw [hq, Nat.le_div_iff_mul_le hstep]
    omega
  have hloop := sampleLoopIdxs_eq n step hstep (by omega)
  refine ⟨(sampleIdxs n t).filterMap (fun i => l[i]?), ?_, ?_, ?_, ?_, ?_⟩
  · unfold samplePoints
    rw [if_neg (by omega), if_neg (by omega), if_neg (by omega)]
  · -- head of the result is the original head
    unfold sampleIdxs
    have h0 : 0 < l.length := by omega
    rw [List.filterMap_cons, List.getElem?_eq_getElem h0]
    rw [show l.head? = some l[0] from by
      rw [List.head?_eq_getElem?, List.getElem?_eq_getElem h0]]
    rfl
  · -- last of the result is the original last
    unfold sampleIdxs
    have hl1 : n - 1 < l.length := by omega
    rw [← List.singleton_append, ← List.append_assoc, List.filterMap_append]
    have hlast : List.filterMap (fun i => l[i]?) [n - 1] = [l[n - 1]] := by
      simp [List.filterMap_cons, List.getElem?_eq_getElem hl1]
    rw [hlast, List.getLast?_concat]
    rw [show l.getLast? = some l[n - 1] from by
      rw [List.getLast?_eq_getElem?, List.getElem?_eq_getElem hl1]]
  · exact filterMap_getElem?_sublist _ l (sampleIdxs_pairwise n t ht hlen)
  · rw [length_filterMap_of_isSome _ _
      (fun i hi => (isSome_getElem? l i).mpr (sampleIdxs_lt n t ht hlen i hi))]
    have hlen2 : (sampleIdxs n t).length = q + 1 := by
      unfold sampleIdxs
      rw [hloop]
      simp only [List.length_cons, List.length_append, List.length_map,
        List.length_range, List.length_singleton, List.length_nil]
      omega
    rw [hlen2]
    -- q + 1 ≤ 2*t - 2 because n - 1 < (step + 1) * (t - 1) and q * step ≤ n - 1
    have key : n - 1 < (step + 1) * (t - 1) := by
      have h1 := Nat.div_add_mod (n - 1) (t - 1)
      have h2 := Nat.mod_lt (n - 1) (show 0 < t - 1 by omega)
      have h3 : (step + 1) * (t - 1) = (t - 1) * ((n - 1) / (t - 1)) + (t - 1) := by
        rw [hstepdef]
        unfold sampleStep
        ring
      omega
    have hqstep : q * step ≤ n - 1 := by
      rw [hq]
      exact Nat.div_mul_le_self _ _
    have hd : t - 1 ≤ step * (t - 1) := Nat.le_mul_of_pos_left _ hstep
    have hmain : q * step < 2 * (t - 1) * step := by
      have h4 : (step + 1) * (t - 1) = step * (t - 1) + (t - 1) := by ring
      have h5 : 2 * (t - 1) * step = step * (t - 1) + step * (t - 1) := by ring
      omega
    have hqlt : q < 2 * (t - 1) := by
      by_contra hc
      have : 2 * (t - 1) * step ≤ q * step :=
        Nat.mul_le_mul_right step (by omega)
      omega
    omega

/-- C1 counterexample: 12 input points with `targetCount = 5` yield 6 sampled
points, exceeding the claimed `length ≤ targetCount` bound. -/
theorem samplePoints_length_counterexample :
    samplePoints (List.range 12) 5 = some [0, 2, 4, 6, 8, 11] ∧ ¬ (6 ≤ 5) := by
  constructor
  · decide
  · omega

/-- C1 witness at a concrete input. -/
theorem samplePoints_sound_witness :
    ∃ r, samplePoints (List.range 7) 3 = some r ∧
      r.head? = (List.range 7).head? ∧ r.getLast? = (List.range 7).getLast? ∧
      r.Sublist (List.range 7) ∧ r.length ≤ 2 * 3 - 2 :=
  samplePoints_sound (List.range 7) 3 (by omega) (by simp)

/-- C5 (amended): `targetCount ≤ 1` does not raise an invalid-argument
condition.  With `targetCount = 1` JS computes `step = Infinity`, the loop body
never runs, and the function returns `[first, last]` normally; with
`targetCount = 0` the loop never terminates (no result at all). -/
theorem samplePoints_degenerate {α : Type} (l : List α) (h1 : 1 < l.length) :
    (∃ r, samplePoints l 1 = some r ∧ r.length = 2 ∧
      r.head? = l.head? ∧ r.getLast? = l.getLast?) ∧
    samplePoints l 0 = none := by
  constructor
  · refine ⟨l.take 1 ++ l.drop (l.length - 1), ?_, ?_, ?_, ?_⟩
    · unfold samplePoints
      rw [if_neg (by omega), if_neg (by omega), if_pos rfl]
    · have hl1 : l.length - 1 < l.length := by omega
      have hdrop : l.drop (l.length - 1) = [l[l.length - 1]] := by
        rw [List.drop_eq_getElem_cons hl1]
        have h2 : l.length - 1 + 1 = l.length := by omega
        rw [h2, List.drop_length]
      rw [hdrop]
      simp only [List.length_append, List.length_take, List.length_singleton]
      omega
    · rcases l with _ | ⟨a, l2⟩
      · simp at h1
      · rfl
    · have hl1 : l.length - 1 < l.length := by omega
      have hdrop : l.drop (l.length - 1) = [l[l.length - 1]] := by
        rw [List.drop_eq_getElem_cons hl1]
        have h2 : l.length - 1 + 1 = l.length := by omega
        rw [h2, List.drop_length]
      rw [hdrop, List.getLast?_concat]
      rw [show l.getLast? = some l[l.length - 1] from by
        rw [List.getLast?_eq_getElem?, List.getElem?_eq_getElem hl1]]
  · unfold samplePoints
    rw [if_neg (by omega), if_pos rfl]

/-- C5 counterexample: at `targetCount = 1` the function returns a normal
result, `[first, last]`, rather than failing. -/
theorem samplePoints_degenerate_counterexample :
    samplePoints ([0, 1, 2] : List Nat) 1 = some [0, 2] ∧
      samplePoints ([0, 1, 2] : List Nat) 1 ≠ none := by
  constructor
  · decide
  · decide

/-- C5 witness at a concrete input. -/
theorem samplePoints_degenerate_witness :
    (∃ r, samplePoints ([10, 20, 30] : List Nat) 1 = some r ∧ r.length = 2 ∧
      r.head? = ([10, 20, 30] : List Nat).head? ∧
      r.getLast? = ([10, 20, 30] : List Nat).getLast?) ∧
    samplePoints ([10, 20, 30] : List Nat) 0 = none :=
  samplePoints_degenerate ([10, 20, 30] : List Nat) (by simp)

/-- C8: inputs no longer than `targetCount` are returned unchanged, and
re-sampling an already-sampled output with the same `targetCount` is the
identity whenever that output fits in `targetCount`. -/
theorem samplePoints_identity_idempotent {α : Type} (l : List α) (t : Nat) :
    (l.length ≤ t → samplePoints l t = some l) ∧
    (∀ r, samplePoints l t = some r → r.length ≤ t → samplePoints r t = some r) := by
  constructor
  · intro h
    unfold samplePoints
    rw [if_pos h]
  · intro r _ hrt
    unfold samplePoints
    rw [if_pos hrt]

/-! ## Fold characterizations (for the aggregator and the engine) -/

theorem foldl_min_mem (l : List ℚ) : ∀ a : ℚ, l.foldl min a ∈ a :: l := by
  induction l with
  | nil => intro a; simp
  | cons b l ih =>
    intro a
    rw [List.foldl_cons]
    rcases List.mem_cons.mp (ih (min a b)) with h | h
    · rcases min_choice a b with hm | hm
      · rw [h, hm]; exact List.mem_cons_self _ _
      · rw [h, hm]; exact List.mem_cons_of_mem _ (List.mem_cons_self _ _)
    · exact List.mem_cons_of_mem _ (List.mem_cons_of_mem _ h)

theorem foldl_min_le (l : List ℚ) : ∀ a x : ℚ, x ∈ a :: l → l.foldl min a ≤ x := by
  induction l with
  | nil =>
    intro a x hx
    rw [List.mem_singleton] at hx
    simp [hx]
  | cons b l ih =>
    intro a x hx
    rw [List.foldl_cons]
    rcases List.mem_cons.mp hx with hxa | hx
    · rw [hxa]
      exact le_trans (ih (min a b) _ (List.mem_cons_self _ _)) (min_le_left a b)
    rcases List.mem_cons.mp hx with hxb | hx
    · rw [hxb]
      exact le_trans (ih (min a b) _ (List.mem_cons_self _ _)) (min_le_right a b)
    · exact ih (min a b) x (List.mem_cons_of_mem _ hx)

theorem foldl_max_mem (l : List ℚ) : ∀ a : ℚ, l.foldl max a ∈ a :: l := by
  induction l with
  | nil => intro a; simp
  | cons b l ih =>
    intro a
    rw [List.foldl_cons]
    rcases List.mem_cons.mp (ih (max a b)) with h | h
    · rcases max_choice a b with hm | hm
      · rw [h, hm]; exact List.mem_cons_self _ _
      · rw [h, hm]; exact List.mem_cons_of_mem _ (List.mem_cons_self _ _)
    · exact List.mem_cons_of_mem _ (List.mem_cons_of_mem _ h)

theorem foldl_max_ge (l : List ℚ) : ∀ a x : ℚ, x ∈ a :: l → x ≤ l.foldl max a := by
  induction l with
  | nil =>
    intro a x hx
    rw [List.mem_singleton] at hx
    simp [hx]
  | cons b l ih =>
    intro a x hx
    rw [List.foldl_cons]
    rcases List.mem_cons.mp hx with hxa | hx
    · rw [hxa]
      exact le_trans (le_max_left a b) (ih (max a b) _ (List.mem_cons_self _ _))
    rcases List.mem_cons.mp hx with hxb | hx
    · rw [hxb]
      exact le_trans (le_max_right a b) (ih (max a b) _ (List.mem_cons_self _ _))
    · exact ih (max a b) x (List.mem_cons_of_mem _ hx)

theorem jsMinList_mem (l : List ℚ) (h : l ≠ []) : jsMinList l ∈ l := by
  rcases l with _ | ⟨a, rest⟩
  · exact absurd rfl h
  · exact foldl_min_mem rest a

theorem jsMinList_le (l : List ℚ) : ∀ x ∈ l, jsMinList l ≤ x := by
  rcases l with _ | ⟨a, rest⟩
  · intro x hx; simp at hx
  · exact fun x hx => foldl_min_le rest a x hx

theorem jsMaxList_mem (l : List ℚ) (h : l ≠ []) : jsMaxList l ∈ l := by
  rcases l with _ | ⟨a, rest⟩
  · exact absurd rfl h
  · exact foldl_max_mem rest a

theorem jsMaxList_ge (l : List ℚ) : ∀ x ∈ l, x ≤ jsMaxList l := by
  rcases l with _ | ⟨a, rest⟩
  · intro x hx; simp at hx
  · exact fun x hx => foldl_max_ge rest a x hx

theorem jsMinList_perm (l1 l2 : List ℚ) (hp : l1.Perm l2) (hne : l1 ≠ []) :
    jsMinList l1 = jsMinList l2 := by
  have hne2 : l2 ≠ [] := by
    intro hc
    exact hne (List.Perm.eq_nil (hc ▸ hp))
  exact le_antisymm
    (jsMinList_le l1 _ (hp.mem_iff.mpr (jsMinList_mem l2 hne2)))
    (jsMinList_le l2 _ (hp.mem_iff.mp (jsMinList_mem l1 hne)))

theorem jsMaxList_perm (l1 l2 : List ℚ) (hp : l1.Perm l2) (hne : l1 ≠ []) :
    jsMaxList l1 = jsMaxList l2 := by
  have hne2 : l2 ≠ [] := by
    intro hc
    exact hne (List.Perm.eq_nil (hc ▸ hp))
  exact le_antisymm
    (jsMaxList_ge l2 _ (hp.mem_iff.mp (jsMaxList_mem l1 hne)))
    (jsMaxList_ge l1 _ (hp.mem_iff.mpr (jsMaxList_mem l2 hne2)))

theorem foldl_add_map {β : Type} (g : β → ℚ) (l : List β) :
    ∀ a : ℚ, l.foldl (fun sum x => sum + g x) a = a + (l.map g).sum := by
  induction l with
  | nil => intro a; simp
  | cons b l ih =>
    intro a
    rw [List.foldl_cons, ih, List.map_cons, List.sum_cons]
    ring

/-! ## Aggregator analysis -/

theorem lt_maxSeqLength_iff (results : List (List WeatherSample)) (h : Nat) :
    h < maxSeqLength results ↔ ∃ r ∈ results, h < r.length := by
  induction results with
  | nil => simp [maxSeqLength]
  | cons r rs ih =>
    unfold maxSeqLength at ih ⊢
    rw [List.foldr_cons, lt_max_iff, ih]
    constructor
    · rintro (h1 | ⟨r2, hr2, h2⟩)
      · exact ⟨r, List.mem_cons_self _ _, h1⟩
      · exact ⟨r2, List.mem_cons_of_mem _ hr2, h2⟩
    · rintro ⟨r2, hr2, h2⟩
      rcases List.mem_cons.mp hr2 with rfl | hr2
      · exact Or.inl h2
      · exact Or.inr ⟨r2, hr2, h2⟩

theorem collectedAt_eq_nil_iff (results : List (List WeatherSample)) (h : Nat) :
    collectedAt results h = [] ↔ maxSeqLength results ≤ h := by
  unfold collectedAt
  rw [List.filterMap_eq_nil_iff]
  constructor
  · intro hall
    by_contra hc
    rcases (lt_maxSeqLength_iff results h).mp (by omega) with ⟨r, hr, hlen⟩
    have := hall r hr
    rw [List.getElem?_eq_getElem hlen] at this
    exact Option.noConfusion this
  · intro hM r hr
    rcases Nat.lt_or_ge h r.length with hlt | hge
    · exact absurd ((lt_maxSeqLength_iff results h).mpr ⟨r, hr, hlt⟩) (by omega)
    · exact List.getElem?_len_le hge

/-- C2 (amended): the aggregated output has one slot for each hour index
`h < 5` present in at least ONE per-point sequence, so its length is
`min 5 (maximum length among the per-point sequences)` — a slot index is
dropped only when it is missing from every point, not when it is missing from
any one point. -/
theorem aggregateWeather_length (results : List (List WeatherSample)) :
    (aggregateWeather results).length = min 5 (maxSeqLength results) := by
  unfold aggregateWeather
  rw [length_filterMap_eq_length_filter]
  have hp : ∀ h : Nat,
      (fun hourIndex => (match collectedAt results hourIndex with
        | [] => (none : Option WeatherSample)
        | w :: rest => some (aggregateSlot w rest)).isSome) h
      = decide (h < maxSeqLength results) := by
    intro h
    cases hc : collectedAt results h with
    | nil =>
      have hM : maxSeqLength results ≤ h := (collectedAt_eq_nil_iff results h).mp hc
      simp [hc, hM, Nat.not_lt.mpr hM]
    | cons w rest =>
      have hM : h < maxSeqLength results := by
        by_contra hcon
        have := (collectedAt_eq_nil_iff results h).mpr (by omega)
        rw [hc] at this
        exact List.noConfusion this
      simp [hc, hM]
  rw [filter_range_eq_range_min _ _ hp 5, List.length_range]

/-- C2 counterexample: two per-point sequences of lengths 1 and 2 aggregate to
2 slots, not to the minimum common hour-count 1. -/
theorem aggregateWeather_length_counterexample :
    (aggregateWeather
      ([[⟨"p", 0, 50, none, none, 5, 0, 50, 0, false⟩],
        [⟨"p", 0, 50, none, none, 5, 0, 50, 0, false⟩,
         ⟨"p", 0, 50, none, none, 5, 0, 50, 0, false⟩]] :
        List (List WeatherSample))).length = 2 ∧
    min ([⟨"p", 0, 50, none, none, 5, 0, 50, 0, false⟩] : List WeatherSample).length
      ([⟨"p", 0, 50, none, none, 5, 0, 50, 0, false⟩,
        ⟨"p", 0, 50, none, none, 5, 0, 50, 0, false⟩] : List WeatherSample).length = 1 := by
  constructor
  · rfl
  · rfl

/-- C6: every aggregated slot built from a non-empty collected list has
`temperatureMin`/`temperatureMax` equal to the least/greatest collected
temperature, representative temperature `round((min+max)/2)`, worst-case wind
and precipitation, humidity equal to the rounded mean, and `time`/`weatherCode`
copied from the first collected sample; identical collected temperatures make
min and max collapse to that value. -/
theorem aggregateSlot_spec (results : List (List WeatherSample)) (h : Nat)
    (w : WeatherSample) (rest : List WeatherSample)
    (hcol : collectedAt results h = w :: rest) (hh : h < 5) :
    aggregateSlot w rest ∈ aggregateWeather results ∧
    (∃ tm tM : ℚ,
      (aggregateSlot w rest).temperatureMin = some tm ∧
      (aggregateSlot w rest).temperatureMax = some tM ∧
      tm ∈ (w :: rest).map (·.temperature) ∧
      tM ∈ (w :: rest).map (·.temperature) ∧
      (∀ x ∈ (w :: rest).map (·.temperature), tm ≤ x ∧ x ≤ tM) ∧
      (aggregateSlot w rest).temperature = (jsRound ((tm + tM) / 2) : ℚ)) ∧
    ((aggregateSlot w rest).windSpeed ∈ (w :: rest).map (·.windSpeed) ∧
      ∀ x ∈ (w :: rest).map (·.windSpeed), x ≤ (aggregateSlot w rest).windSpeed) ∧
    ((aggregateSlot w rest).precipitationChance ∈ (w :: rest).map (·.precipitationChance) ∧
      ∀ x ∈ (w :: rest).map (·.precipitationChance),
        x ≤ (aggregateSlot w rest).precipitationChance) ∧
    (aggregateSlot w rest).humidity =
      (jsRound (((w :: rest).map (·.humidity)).sum / ((w :: rest).length : ℚ)) : ℚ) ∧
    (aggregateSlot w rest).time = w.time ∧
    (aggregateSlot w rest).weatherCode = w.weatherCode ∧
    (∀ v : ℚ, (∀ s ∈ w :: rest, s.temperature = v) →
      (aggregateSlot w rest).temperatureMin = some v ∧
      (aggregateSlot w rest).temperatureMax = some v) := by
  have hne : (w :: rest).map (fun s => s.temperature) ≠ [] := by simp
  refine ⟨?_, ?_, ?_, ?_, ?_, rfl, rfl, ?_⟩
  · unfold aggregateWeather
    apply List.mem_filterMap.mpr
    refine ⟨h, List.mem_range.mpr hh, ?_⟩
    rw [hcol]
  · have hTm : (aggregateSlot w rest).temperatureMin =
        some (jsMinList ((w :: rest).map (·.temperature))) := rfl
    have hTM : (aggregateSlot w rest).temperatureMax =
        some (jsMaxList ((w :: rest).map (·.temperature))) := rfl
    have hTrep : (aggregateSlot w rest).temperature =
        (jsRound ((jsMinList ((w :: rest).map (·.temperature)) +
          jsMaxList ((w :: rest).map (·.temperature))) / 2) : ℚ) := rfl
    refine ⟨jsMinList ((w :: rest).map (·.temperature)),
      jsMaxList ((w :: rest).map (·.temperature)), hTm, hTM,
      jsMinList_mem _ hne, jsMaxList_mem _ hne, ?_, hTrep⟩
    exact fun x hx => ⟨jsMinList_le _ x hx, jsMaxList_ge _ x hx⟩
  · exact ⟨jsMaxList_mem _ (by simp), fun x hx => jsMaxList_ge _ x hx⟩
  · exact ⟨jsMaxList_mem _ (by simp), fun x hx => jsMaxList_ge _ x hx⟩
  · show (jsRound ((w :: rest).foldl (fun sum s => sum + s.humidity) 0 /
      ((w :: rest).length : ℚ)) : ℚ) = _
    rw [foldl_add_map, zero_add]
  · intro v hv
    have hmin := jsMinList_mem ((w :: rest).map (·.temperature)) hne
    have hmax := jsMaxList_mem ((w :: rest).map (·.temperature)) hne
    rcases List.mem_map.mp hmin with ⟨s1, hs1, heq1⟩
    rcases List.mem_map.mp hmax with ⟨s2, hs2, heq2⟩
    constructor
    · show some (jsMinList ((w :: rest).map (·.temperature))) = some v
      rw [← heq1, hv s1 hs1]
    · show some (jsMaxList ((w :: rest).map (·.temperature))) = some v
      rw [← heq2, hv s2 hs2]

/-- C6 witness at a concrete input (one point, one hour slot). -/
theorem aggregateSlot_spec_witness :
    aggregateSlot ⟨"p", 7, 40, none, none, 9, 20, 50, 3, false⟩ [] ∈
      aggregateWeather [[⟨"p", 7, 40, none, none, 9, 20, 50, 3, false⟩]] ∧
    (∃ tm tM : ℚ,
      (aggregateSlot ⟨"p", 7, 40, none, none, 9, 20, 50, 3, false⟩ []).temperatureMin = some tm ∧
      (aggregateSlot ⟨"p", 7, 40, none, none, 9, 20, 50, 3, false⟩ []).temperatureMax = some tM ∧
      tm ∈ ([⟨"p", 7, 40, none, none, 9, 20, 50, 3, false⟩] : List WeatherSample).map (·.temperature) ∧
      tM ∈ ([⟨"p", 7, 40, none, none, 9, 20, 50, 3, false⟩] : List WeatherSample).map (·.temperature) ∧
      (∀ x ∈ ([⟨"p", 7, 40, none, none, 9, 20, 50, 3, false⟩] : List WeatherSample).map (·.temperature),
        tm ≤ x ∧ x ≤ tM) ∧
      (aggregateSlot ⟨"p", 7, 40, none, none, 9, 20, 50, 3, false⟩ []).temperature =
        (jsRound ((tm + tM) / 2) : ℚ)) ∧
    ((aggregateSlot ⟨"p", 7, 40, none, none, 9, 20, 50, 3, false⟩ []).windSpeed ∈
        ([⟨"p", 7, 40, none, none, 9, 20, 50, 3, false⟩] : List WeatherSample).map (·.windSpeed) ∧
      ∀ x ∈ ([⟨"p", 7, 40, none, none, 9, 20, 50, 3, false⟩] : List WeatherSample).map (·.windSpeed),
        x ≤ (aggregateSlot ⟨"p", 7, 40, none, none, 9, 20, 50, 3, false⟩ []).windSpeed) ∧
    ((aggregateSlot ⟨"p", 7, 40, none, none, 9, 20, 50, 3, false⟩ []).precipitationChance ∈
        ([⟨"p", 7, 40, none, none, 9, 20, 50, 3, false⟩] : List WeatherSample).map (·.precipitationChance) ∧
      ∀ x ∈ ([⟨"p", 7, 40, none, none, 9, 20, 50, 3, false⟩] : List WeatherSample).map (·.precipitationChance),
        x ≤ (aggregateSlot ⟨"p", 7, 40, none, none, 9, 20, 50, 3, false⟩ []).precipitationChance) ∧
    (aggregateSlot ⟨"p", 7, 40, none, none, 9, 20, 50, 3, false⟩ []).humidity =
      (jsRound ((([⟨"p", 7, 40, none, none, 9, 20, 50, 3, false⟩] : List WeatherSample).map (·.humidity)).sum /
        ((([⟨"p", 7, 40, none, none, 9, 20, 50, 3, false⟩] : List WeatherSample)).length : ℚ)) : ℚ) ∧
    (aggregateSlot ⟨"p", 7, 40, none, none, 9, 20, 50, 3, false⟩ []).time =
      (⟨"p", 7, 40, none, none, 9, 20, 50, 3, false⟩ : WeatherSample).time ∧
    (aggregateSlot ⟨"p", 7, 40, none, none, 9, 20, 50, 3, false⟩ []).weatherCode =
      (⟨"p", 7, 40, none, none, 9, 20, 50, 3, false⟩ : WeatherSample).weatherCode ∧
    (∀ v : ℚ, (∀ s ∈ ([⟨"p", 7, 40, none, none, 9, 20, 50, 3, false⟩] : List WeatherSample),
        s.temperature = v) →
      (aggregateSlot ⟨"p", 7, 40, none, none, 9, 20, 50, 3, false⟩ []).temperatureMin = some v ∧
      (aggregateSlot ⟨"p", 7, 40, none, none, 9, 20, 50, 3, false⟩ []).temperatureMax = some v) :=
  aggregateSlot_spec [[⟨"p", 7, 40, none, none, 9, 20, 50, 3, false⟩]] 0
    ⟨"p", 7, 40, none, none, 9, 20, 50, 3, false⟩ [] rfl (by omega)

theorem forall₂_filterMap_of_rel {γ δ : Type} (R : δ → δ → Prop) (F G : γ → Option δ)
    (l : List γ)
    (h : ∀ x ∈ l, (F x = none ∧ G x = none) ∨
      ∃ a b, F x = some a ∧ G x = some b ∧ R a b) :
    List.Forall₂ R (l.filterMap F) (l.filterMap G) := by
  induction l with
  | nil => exact List.Forall₂.nil
  | cons x l ih =>
    have hrest := ih (fun y hy => h y (List.mem_cons_of_mem _ hy))
    rcases h x (List.mem_cons_self _ _) with ⟨h1, h2⟩ | ⟨a, b, h1, h2, hr⟩
    · rw [List.filterMap_cons, List.filterMap_cons, h1, h2]
      exact hrest
    · rw [List.filterMap_cons, List.filterMap_cons, h1, h2]
      exact List.Forall₂.cons hr hrest

theorem aggregateSlot_agrees (w1 : WeatherSample) (rest1 : List WeatherSample)
    (w2 : WeatherSample) (rest2 : List WeatherSample)
    (hp : (w1 :: rest1).Perm (w2 :: rest2)) :
    slotAgrees (aggregateSlot w1 rest1) (aggregateSlot w2 rest2) := by
  have hmin : jsMinList ((w1 :: rest1).map (·.temperature)) =
      jsMinList ((w2 :: rest2).map (·.temperature)) :=
    jsMinList_perm _ _ (hp.map _) (by simp)
  have hmax : jsMaxList ((w1 :: rest1).map (·.temperature)) =
      jsMaxList ((w2 :: rest2).map (·.temperature)) :=
    jsMaxList_perm _ _ (hp.map _) (by simp)
  have hwind : jsMaxList ((w1 :: rest1).map (·.windSpeed)) =
      jsMaxList ((w2 :: rest2).map (·.windSpeed)) :=
    jsMaxList_perm _ _ (hp.map _) (by simp)
  have hprecip : jsMaxList ((w1 :: rest1).map (·.precipitationChance)) =
      jsMaxList ((w2 :: rest2).map (·.precipitationChance)) :=
    jsMaxList_perm _ _ (hp.map _) (by simp)
  have hsum : ((w1 :: rest1).map (·.humidity)).sum =
      ((w2 :: rest2).map (·.humidity)).sum :=
    (hp.map _).sum_eq
  have hlen : (w1 :: rest1).length = (w2 :: rest2).length := hp.length_eq
  unfold slotAgrees
  refine ⟨rfl, ?_, ?_, ?_, ?_, ?_, ?_, rfl⟩
  · show (jsRound ((jsMinList ((w1 :: rest1).map (·.temperature)) +
      jsMaxList ((w1 :: rest1).map (·.temperature))) / 2) : ℚ) = _
    rw [hmin, hmax]
    rfl
  · show some (jsMinList ((w1 :: rest1).map (·.temperature))) = _
    rw [hmin]
    rfl
  · show some (jsMaxList ((w1 :: rest1).map (·.temperature))) = _
    rw [hmax]
    rfl
  · show jsMaxList ((w1 :: rest1).map (·.windSpeed)) = _
    rw [hwind]
    rfl
  · show jsMaxList ((w1 :: rest1).map (·.precipitationChance)) = _
    rw [hprecip]
    rfl
  · show (jsRound ((w1 :: rest1).foldl (fun sum s => sum + s.humidity) 0 /
      ((w1 :: rest1).length : ℚ)) : ℚ) =
      (jsRound ((w2 :: rest2).foldl (fun sum s => sum + s.humidity) 0 /
      ((w2 :: rest2).length : ℚ)) : ℚ)
    rw [foldl_add_map, foldl_add_map, zero_add, zero_add, hsum, hlen]

/-- C7 (amended): permuting the per-point forecast list leaves every
aggregated slot unchanged on all fields except `time` and `weatherCode`
(which are copied from whichever collected sample comes first), slot for slot
and in the same hour order; in particular the output length is unchanged. -/
theorem aggregateWeather_perm (results1 results2 : List (List WeatherSample))
    (hp : results1.Perm results2) :
    List.Forall₂ slotAgrees (aggregateWeather results1) (aggregateWeather results2) ∧
    (aggregateWeather results1).length = (aggregateWeather results2).length := by
  have hmain : List.Forall₂ slotAgrees (aggregateWeather results1)
      (aggregateWeather results2) := by
    unfold aggregateWeather
    apply forall₂_filterMap_of_rel
    intro h hmem
    have hcp : (collectedAt results1 h).Perm (collectedAt results2 h) :=
      hp.filterMap _
    cases hc1 : collectedAt results1 h with
    | nil =>
      left
      rw [hc1] at hcp
      have hc2 : collectedAt results2 h = [] := hcp.symm.eq_nil
      rw [hc2]
      exact ⟨rfl, rfl⟩
    | cons w1 r1 =>
      right
      rw [hc1] at hcp
      cases hc2 : collectedAt results2 h with
      | nil =>
        rw [hc2] at hcp
        exact absurd hcp.eq_nil (by simp)
      | cons w2 r2 =>
        rw [hc2] at hcp
        exact ⟨aggregateSlot w1 r1, aggregateSlot w2 r2, rfl, rfl,
          aggregateSlot_agrees w1 r1 w2 r2 hcp⟩
  exact ⟨hmain, hmain.length_eq⟩

/-- C7 counterexample: two points whose slot-0 samples differ only in
`weatherCode` give different aggregated outputs when swapped, because the
aggregate copies `weatherCode` (and `time`) from the first collected sample. -/
theorem aggregateWeather_perm_counterexample :
    ([[⟨"a", 0, 50, none, none, 5, 0, 50, 0, false⟩],
      [⟨"b", 0, 50, none, none, 5, 0, 50, 1, false⟩]] :
      List (List WeatherSample)).Perm
      [[⟨"b", 0, 50, none, none, 5, 0, 50, 1, false⟩],
       [⟨"a", 0, 50, none, none, 5, 0, 50, 0, false⟩]] ∧
    aggregateWeather
      [[⟨"a", 0, 50, none, none, 5, 0, 50, 0, false⟩],
       [⟨"b", 0, 50, none, none, 5, 0, 50, 1, false⟩]] ≠
    aggregateWeather
      [[⟨"b", 0, 50, none, none, 5, 0, 50, 1, false⟩],
       [⟨"a", 0, 50, none, none, 5, 0, 50, 0, false⟩]] := by
  constructor
  · exact List.Perm.swap _ _ _
  · intro hEq
    have h2 := congrArg (List.map WeatherSample.weatherCode) hEq
    have ha : (aggregateWeather
        [[⟨"a", 0, 50, none, none, 5, 0, 50, 0, false⟩],
         [⟨"b", 0, 50, none, none, 5, 0, 50, 1, false⟩]]).map
        WeatherSample.weatherCode = [0] := rfl
    have hb : (aggregateWeather
        [[⟨"b", 0, 50, none, none, 5, 0, 50, 1, false⟩],
         [⟨"a", 0, 50, none, none, 5, 0, 50, 0, false⟩]]).map
        WeatherSample.weatherCode = [1] := rfl
    rw [ha, hb] at h2
    exact absurd h2 (by decide)

/-- C7 witness at a concrete input. -/
theorem aggregateWeather_perm_witness :
    List.Forall₂ slotAgrees
      (aggregateWeather [[⟨"a", 0, 41, none, none, 5, 0, 50, 0, false⟩],
        [⟨"b", 0, 47, none, none, 8, 0, 60, 0, false⟩]])
      (aggregateWeather [[⟨"b", 0, 47, none, none, 8, 0, 60, 0, false⟩],
        [⟨"a", 0, 41, none, none, 5, 0, 50, 0, false⟩]]) ∧
    (aggregateWeather [[⟨"a", 0, 41, none, none, 5, 0, 50, 0, false⟩],
      [⟨"b", 0, 47, none, none, 8, 0, 60, 0, false⟩]]).length =
    (aggregateWeather [[⟨"b", 0, 47, none, none, 8, 0, 60, 0, false⟩],
      [⟨"a", 0, 41, none, none, 5, 0, 50, 0, false⟩]]).length :=
  aggregateWeather_perm _ _ (List.Perm.swap _ _ _)

/-- C8 witness at a concrete input. -/
theorem samplePoints_identity_idempotent_witness :
    (([5, 6, 7] : List Nat).length ≤ 4 → samplePoints ([5, 6, 7] : List Nat) 4 = some [5, 6, 7]) ∧
    (∀ r, samplePoints ([5, 6, 7] : List Nat) 4 = some r → r.length ≤ 4 →
      samplePoints r 4 = some r) :=
  samplePoints_identity_idempotent ([5, 6, 7] : List Nat) 4

/-! ## Recommendation engine analysis -/

theorem map_tempOrMin_eq_filterMap (l : List WeatherSample)
    (hmins : ∀ w ∈ l, ∃ v, w.temperatureMin = some v ∧ v ≠ 0) :
    l.map tempOrMin = l.filterMap (·.temperatureMin) := by
  induction l with
  | nil => rfl
  | cons w l ih =>
    rcases hmins w (List.mem_cons_self _ _) with ⟨v, hv, hvne⟩
    have h1 : tempOrMin w = v := by
      unfold tempOrMin
      rw [hv]
      simp [hvne]
    rw [List.map_cons, List.filterMap_cons, hv, h1,
      ih (fun x hx => hmins x (List.mem_cons_of_mem _ hx))]

/-- C3 (amended): the felt temperature is `baseTemp + (heatFactor - 1) * 15`
with heat factors 0.7 / 1.0 / 1.3 / 1.6 for easy / endurance / tempo /
all-out; for a non-aggregated sequence the base is the arithmetic mean of the
temperatures; for an aggregated sequence the base is the minimum of
`temperatureMin || temperature` — this equals the minimum of the
`temperatureMin` values whenever every sample carries a non-zero
`temperatureMin` (JS `||` falls back to `temperature` when `temperatureMin`
is missing or 0). -/
theorem generateRecommendations_baseTemp (weatherData : List WeatherSample)
    (hne : weatherData ≠ []) (eid : String) (f : ℚ)
    (hf : (eid, f) ∈ [("easy", (0.7 : ℚ)), ("endurance", 1), ("tempo", 1.3),
      ("all-out", 1.6)]) :
    (∃ e, EFFORT_LEVELS.find? (fun x => x.id == eid) = some e ∧ e.heatFactor = f ∧
      feltTempFor weatherData e = avgTempUsed weatherData + (f - 1) * 15) ∧
    (isAggregatedData weatherData = true →
      (∀ w ∈ weatherData, ∃ v, w.temperatureMin = some v ∧ v ≠ 0) →
      avgTempUsed weatherData ∈ weatherData.filterMap (·.temperatureMin) ∧
      ∀ v ∈ weatherData.filterMap (·.temperatureMin), avgTempUsed weatherData ≤ v) ∧
    (isAggregatedData weatherData = false →
      avgTempUsed weatherData * weatherData.length =
        (weatherData.map (·.temperature)).sum) := by
  refine ⟨?_, ?_, ?_⟩
  · simp only [List.mem_cons, List.mem_singleton, List.not_mem_nil, or_false,
      Prod.mk.injEq] at hf
    rcases hf with ⟨rfl, rfl⟩ | ⟨rfl, rfl⟩ | ⟨rfl, rfl⟩ | ⟨rfl, rfl⟩
    · exact ⟨⟨"easy", "Easy", "Conversational pace", 0.7⟩, rfl, rfl, rfl⟩
    · exact ⟨⟨"endurance", "Endurance", "Steady, sustained effort", 1⟩, rfl, rfl, rfl⟩
    · exact ⟨⟨"tempo", "Tempo", "Comfortably hard", 1.3⟩, rfl, rfl, rfl⟩
    · exact ⟨⟨"all-out", "All Out", "Maximum effort", 1.6⟩, rfl, rfl, rfl⟩
  · intro hAgg hmins
    have h2 : avgTempUsed weatherData =
        jsMinList (weatherData.filterMap (·.temperatureMin)) := by
      unfold avgTempUsed
      rw [if_pos hAgg, map_tempOrMin_eq_filterMap weatherData hmins]
    have hne2 : weatherData.filterMap (·.temperatureMin) ≠ [] := by
      rw [← map_tempOrMin_eq_filterMap weatherData hmins]
      simp [hne]
    rw [h2]
    exact ⟨jsMinList_mem _ hne2, jsMinList_le _⟩
  · intro hNAgg
    unfold avgTempUsed
    rw [if_neg (by simp [hNAgg]), foldl_add_map, zero_add]
    have hlen : ((weatherData.length : ℚ)) ≠ 0 := by
      simp [List.length_eq_zero, hne]
    rw [div_mul_cancel₀ _ hlen]

/-- C3 counterexample: an aggregated sample with `temperatureMin = 0` makes the
code fall back to `temperature` (JS `||` treats 0 as falsy), so the base is 10,
not the claimed minimum 0 of the `temperatureMin` values. -/
theorem generateRecommendations_baseTemp_counterexample :
    avgTempUsed [⟨"p", 0, 10, some 0, some 20, 5, 0, 50, 0, true⟩] = 10 ∧
    jsMinList (([⟨"p", 0, 10, some 0, some 20, 5, 0, 50, 0, true⟩] :
      List WeatherSample).filterMap (·.temperatureMin)) = 0 ∧
    (10 : ℚ) ≠ 0 := by
  refine ⟨?_, ?_, by norm_num⟩
  · simp [avgTempUsed, isAggregatedData, tempOrMin, jsMinList]
  · simp [jsMinList, List.filterMap_cons]

/-- C3 witness at a concrete input. -/
theorem generateRecommendations_baseTemp_witness :
    (∃ e, EFFORT_LEVELS.find? (fun x => x.id == "tempo") = some e ∧
      e.heatFactor = 1.3 ∧
      feltTempFor [⟨"q", 0, 30, some 28, some 31, 10, 0, 50, 0, true⟩,
        ⟨"q", 1, 29, some 27, some 30, 12, 0, 50, 0, true⟩] e =
      avgTempUsed [⟨"q", 0, 30, some 28, some 31, 10, 0, 50, 0, true⟩,
        ⟨"q", 1, 29, some 27, some 30, 12, 0, 50, 0, true⟩] + ((1.3 : ℚ) - 1) * 15) ∧
    (isAggregatedData [⟨"q", 0, 30, some 28, some 31, 10, 0, 50, 0, true⟩,
        ⟨"q", 1, 29, some 27, some 30, 12, 0, 50, 0, true⟩] = true →
      (∀ w ∈ [⟨"q", 0, 30, some 28, some 31, 10, 0, 50, 0, true⟩,
        ⟨"q", 1, 29, some 27, some 30, 12, 0, 50, 0, true⟩],
        ∃ v, WeatherSample.temperatureMin w = some v ∧ v ≠ 0) →
      avgTempUsed [⟨"q", 0, 30, some 28, some 31, 10, 0, 50, 0, true⟩,
        ⟨"q", 1, 29, some 27, some 30, 12, 0, 50, 0, true⟩] ∈
        ([⟨"q", 0, 30, some 28, some 31, 10, 0, 50, 0, true⟩,
          ⟨"q", 1, 29, some 27, some 30, 12, 0, 50, 0, true⟩] :
          List WeatherSample).filterMap (·.temperatureMin) ∧
      ∀ v ∈ ([⟨"q", 0, 30, some 28, some 31, 10, 0, 50, 0, true⟩,
          ⟨"q", 1, 29, some 27, some 30, 12, 0, 50, 0, true⟩] :
          List WeatherSample).filterMap (·.temperatureMin),
        avgTempUsed [⟨"q", 0, 30, some 28, some 31, 10, 0, 50, 0, true⟩,
          ⟨"q", 1, 29, some 27, some 30, 12, 0, 50, 0, true⟩] ≤ v) ∧
    (isAggregatedData [⟨"q", 0, 30, some 28, some 31, 10, 0, 50, 0, true⟩,
        ⟨"q", 1, 29, some 27, some 30, 12, 0, 50, 0, true⟩] = false →
      avgTempUsed [⟨"q", 0, 30, some 28, some 31, 10, 0, 50, 0, true⟩,
          ⟨"q", 1, 29, some 27, some 30, 12, 0, 50, 0, true⟩] *
        (([⟨"q", 0, 30, some 28, some 31, 10, 0, 50, 0, true⟩,
          ⟨"q", 1, 29, some 27, some 30, 12, 0, 50, 0, true⟩] :
          List WeatherSample).length : ℚ) =
        (([⟨"q", 0, 30, some 28, some 31, 10, 0, 50, 0, true⟩,
          ⟨"q", 1, 29, some 27, some 30, 12, 0, 50, 0, true⟩] :
          List WeatherSample).map (·.temperature)).sum) :=
  generateRecommendations_baseTemp
    [⟨"q", 0, 30, some 28, some 31, 10, 0, 50, 0, true⟩,
     ⟨"q", 1, 29, some 27, some 30, 12, 0, 50, 0, true⟩]
    (by simp) "tempo" 1.3
    (List.mem_cons_of_mem _ (List.mem_cons_of_mem _ (List.mem_cons_self _ _)))

theorem effort_find_isSome (eid : String)
    (heid : eid ∈ ["easy", "endurance", "tempo", "all-out"]) :
    ∃ e, EFFORT_LEVELS.find? (fun x => x.id == eid) = some e := by
  simp only [List.mem_cons, List.mem_singleton, List.not_mem_nil, or_false] at heid
  rcases heid with rfl | rfl | rfl | rfl
  · exact ⟨⟨"easy", "Easy", "Conversational pace", 0.7⟩, rfl⟩
  · exact ⟨⟨"endurance", "Endurance", "Steady, sustained effort", 1⟩, rfl⟩
  · exact ⟨⟨"tempo", "Tempo", "Comfortably hard", 1.3⟩, rfl⟩
  · exact ⟨⟨"all-out", "All Out", "Maximum effort", 1.6⟩, rfl⟩

/-- C9 (amended): an unknown activity id that does not name an
`Object.prototype` member yields `some (items [])` — an empty recommendation
list, not a thrown error; but an unknown id that does name one (such as
`toString`, `constructor`, or `__proto__`) makes the object lookup resolve the
truthy inherited member, which `||` short-circuits on, so the function returns
that inherited value instead of an empty list (still without throwing). -/
theorem generateRecommendations_unknown_activity (activity : String)
    (hact : activity ∉ ["run", "mountain-bike", "road-bike", "downhill-ski",
      "backcountry-ski", "nordic-ski"])
    (weatherData : List WeatherSample) (hne : weatherData ≠ [])
    (eid : String) (heid : eid ∈ ["easy", "endurance", "tempo", "all-out"]) :
    (activity ∉ objectPrototypeMembers →
      generateRecommendations activity weatherData eid =
        some (RecResult.items [])) ∧
    (activity ∈ objectPrototypeMembers →
      generateRecommendations activity weatherData eid =
        some (RecResult.protoMember activity)) := by
  rcases effort_find_isSome eid heid with ⟨e, he⟩
  simp only [List.mem_cons, List.mem_singleton, List.not_mem_nil, or_false,
    not_or] at hact
  obtain ⟨h1, h2, h3, h4, h5, h6⟩ := hact
  constructor
  · intro hproto
    unfold generateRecommendations
    rw [he]
    dsimp only
    unfold layersFor
    rw [if_neg h1, if_neg h2, if_neg h3, if_neg h4, if_neg h5, if_neg h6,
      if_neg hproto]
  · intro hproto
    unfold generateRecommendations
    rw [he]
    dsimp only
    unfold layersFor
    rw [if_neg h1, if_neg h2, if_neg h3, if_neg h4, if_neg h5, if_neg h6,
      if_pos hproto]

/-- C9 counterexample: the unknown activity id `toString` names an inherited
`Object.prototype` member, so `layers["toString"] || []` returns the truthy
inherited function, not the empty list the claim asserts for every unknown id. -/
theorem generateRecommendations_unknown_activity_counterexample :
    ("toString" ∉ ["run", "mountain-bike", "road-bike", "downhill-ski",
      "backcountry-ski", "nordic-ski"]) ∧
    generateRecommendations "toString"
      [⟨"p", 0, 50, none, none, 5, 0, 50, 0, false⟩] "easy" =
      some (RecResult.protoMember "toString") ∧
    RecResult.protoMember "toString" ≠ RecResult.items [] := by
  refine ⟨by decide, rfl, by decide⟩

/-- C9 witness at a concrete input. -/
theorem generateRecommendations_unknown_activity_witness :
    ("swimming" ∉ objectPrototypeMembers →
      generateRecommendations "swimming"
        [⟨"p", 0, 50, none, none, 5, 0, 50, 0, false⟩] "easy" =
        some (RecResult.items [])) ∧
    ("swimming" ∈ objectPrototypeMembers →
      generateRecommendations "swimming"
        [⟨"p", 0, 50, none, none, 5, 0, 50, 0, false⟩] "easy" =
        some (RecResult.protoMember "swimming")) :=
  generateRecommendations_unknown_activity "swimming" (by decide)
    [⟨"p", 0, 50, none, none, 5, 0, 50, 0, false⟩] (by simp) "easy" (by decide)

theorem getRunningLayers_ne_nil (t w : ℚ) (r : Bool) : getRunningLayers t w r ≠ [] := by
  unfold getRunningLayers
  split_ifs <;> simp

theorem getMountainBikeLayers_ne_nil (t w : ℚ) (r : Bool) :
    getMountainBikeLayers t w r ≠ [] := by
  unfold getMountainBikeLayers
  split_ifs <;> simp

theorem getRoadBikeLayers_ne_nil (t w : ℚ) (r : Bool) :
    getRoadBikeLayers t w r ≠ [] := by
  unfold getRoadBikeLayers
  split_ifs <;> simp

theorem getDownhillSkiLayers_ne_nil (t w : ℚ) (r : Bool) :
    getDownhillSkiLayers t w r ≠ [] := by
  unfold getDownhillSkiLayers
  split_ifs <;> simp

theorem getBackcountrySkiLayers_ne_nil (t w : ℚ) (r : Bool) :
    getBackcountrySkiLayers t w r ≠ [] := by
  unfold getBackcountrySkiLayers
  split_ifs <;> simp

theorem getNordicSkiLayers_ne_nil (t w : ℚ) (r : Bool) :
    getNordicSkiLayers t w r ≠ [] := by
  unfold getNordicSkiLayers
  split_ifs <;> simp

/-- C10: every temperature band of every per-activity layer function pushes at
least one item, so for each of the six known activities (and any valid effort
and non-empty forecast) `generateRecommendations` returns a non-empty list. -/
theorem generateRecommendations_known_nonempty (activity : String)
    (hact : activity ∈ ["run", "mountain-bike", "road-bike", "downhill-ski",
      "backcountry-ski", "nordic-ski"])
    (weatherData : List WeatherSample) (hne : weatherData ≠ [])
    (eid : String) (heid : eid ∈ ["easy", "endurance", "tempo", "all-out"]) :
    (∀ (feltTemp maxWind : ℚ) (hasRain : Bool),
      getRunningLayers feltTemp maxWind hasRain ≠ [] ∧
      getMountainBikeLayers feltTemp maxWind hasRain ≠ [] ∧
      getRoadBikeLayers feltTemp maxWind hasRain ≠ [] ∧
      getDownhillSkiLayers feltTemp maxWind hasRain ≠ [] ∧
      getBackcountrySkiLayers feltTemp maxWind hasRain ≠ [] ∧
      getNordicSkiLayers feltTemp maxWind hasRain ≠ []) ∧
    ∃ recs, generateRecommendations activity weatherData eid =
      some (RecResult.items recs) ∧ recs ≠ [] := by
  refine ⟨fun ft mw hr => ⟨getRunningLayers_ne_nil ft mw hr,
    getMountainBikeLayers_ne_nil ft mw hr, getRoadBikeLayers_ne_nil ft mw hr,
    getDownhillSkiLayers_ne_nil ft mw hr, getBackcountrySkiLayers_ne_nil ft mw hr,
    getNordicSkiLayers_ne_nil ft mw hr⟩, ?_⟩
  rcases effort_find_isSome eid heid with ⟨e, he⟩
  unfold generateRecommendations
  rw [he]
  dsimp only
  simp only [List.mem_cons, List.mem_singleton, List.not_mem_nil, or_false] at hact
  unfold layersFor
  rcases hact with rfl | rfl | rfl | rfl | rfl | rfl
  · rw [if_pos rfl]
    exact ⟨_, rfl, getRunningLayers_ne_nil _ _ _⟩
  · rw [if_neg (by decide), if_pos rfl]
    exact ⟨_, rfl, getMountainBikeLayers_ne_nil _ _ _⟩
  · rw [if_neg (by decide), if_neg (by decide), if_pos rfl]
    exact ⟨_, rfl, getRoadBikeLayers_ne_nil _ _ _⟩
  · rw [if_neg (by decide), if_neg (by decide), if_neg (by decide), if_pos rfl]
    exact ⟨_, rfl, getDownhillSkiLayers_ne_nil _ _ _⟩
  · rw [if_neg (by decide), if_neg (by decide), if_neg (by decide),
      if_neg (by decide), if_pos rfl]
    exact ⟨_, rfl, getBackcountrySkiLayers_ne_nil _ _ _⟩
  · rw [if_neg (by decide), if_neg (by decide), if_neg (by decide),
      if_neg (by decide), if_neg (by decide), if_pos rfl]
    exact ⟨_, rfl, getNordicSkiLayers_ne_nil _ _ _⟩

/-! ## Forecast fetcher analysis -/

theorem jsRound_bounds (a b : ℤ) (x : ℚ) (h1 : (a : ℚ) ≤ x) (h2 : x < (b : ℚ)) :
    a ≤ jsRound x ∧ jsRound x ≤ b := by
  unfold jsRound
  constructor
  · rw [Int.le_floor]
    push_cast
    linarith
  · have hb : ⌊x + 1/2⌋ < b + 1 := by
      rw [Int.floor_lt]
      push_cast
      linarith
    omega

/-- C4 (amended): when the provider call throws, `fetchWeatherData` returns the
mock generator's 5 synthetic samples (wind 5-20 mph, precipitation 0-100 %,
humidity 40-80 %, temperature rounded from a 50-80 °F baseline plus a ±5 °F
jitter), and that path never fails; but on a successful provider call each of
the 5 hourly slots whose `findIndex` resolution fails is silently skipped —
the result then has between 0 and 5 samples and is NOT replaced by the mock
data, and only when every slot resolves does it have exactly 5 samples. -/
theorem fetchWeatherData_contract (locName : String) (startMs : Int)
    (rand : Nat → ℚ) (hrand : ∀ n, 0 ≤ rand n ∧ rand n < 1) :
    (∀ data : HourlyData,
      (fetchWeatherData (some data) locName startMs rand).length ≤ 5 ∧
      ((∀ i : Nat, i < 5 →
          (data.time.findIdx? (fun t => decide (startMs + (i : Int) * 3600000 ≤ t))).isSome) →
        (fetchWeatherData (some data) locName startMs rand).length = 5)) ∧
    fetchWeatherData none locName startMs rand =
      generateMockWeather locName startMs rand ∧
    (generateMockWeather locName startMs rand).length = 5 ∧
    (∀ w ∈ generateMockWeather locName startMs rand,
      ((5 : ℚ) ≤ w.windSpeed ∧ w.windSpeed ≤ 20) ∧
      ((0 : ℚ) ≤ w.precipitationChance ∧ w.precipitationChance ≤ 100) ∧
      ((40 : ℚ) ≤ w.humidity ∧ w.humidity ≤ 80) ∧
      (∃ base jitter : ℚ, 50 ≤ base ∧ base < 80 ∧ -5 ≤ jitter ∧ jitter < 5 ∧
        w.temperature = (jsRound (base + jitter) : ℚ))) := by
  refine ⟨?_, rfl, by simp [generateMockWeather], ?_⟩
  · intro data
    constructor
    · unfold fetchWeatherData
      calc ((List.range 5).filterMap _).length ≤ (List.range 5).length :=
            List.length_filterMap_le _ _
        _ = 5 := List.length_range 5
    · intro hres
      unfold fetchWeatherData
      rw [length_filterMap_of_isSome _ _ ?_, List.length_range]
      intro i hi
      have hi5 : i < 5 := List.mem_range.mp hi
      rcases hfind : data.time.findIdx? (fun t => decide (startMs + i * 3600000 ≤ t)) with
        _ | idx
      · have := hres i hi5
        rw [hfind] at this
        simp at this
      · simp only [hfind]
        rfl
  · intro w hw
    unfold generateMockWeather at hw
    rcases List.mem_map.mp hw with ⟨i, _, rfl⟩
    have hr0 := hrand (5 * i)
    have hr1 := hrand (5 * i + 1)
    have hr2 := hrand (5 * i + 2)
    have hr3 := hrand (5 * i + 3)
    have hr4 := hrand (5 * i + 4)
    have hm15 : rand (5 * i + 2) * 15 < 1 * 15 :=
      mul_lt_mul_of_pos_right hr2.2 (by norm_num)
    have hm100 : rand (5 * i + 3) * 100 < 1 * 100 :=
      mul_lt_mul_of_pos_right hr3.2 (by norm_num)
    have hm40 : rand (5 * i + 4) * 40 < 1 * 40 :=
      mul_lt_mul_of_pos_right hr4.2 (by norm_num)
    have hm30 : rand (5 * i) * 30 < 1 * 30 :=
      mul_lt_mul_of_pos_right hr0.2 (by norm_num)
    refine ⟨?_, ?_, ?_, ?_⟩
    · have hb := jsRound_bounds 5 20 (5 + rand (5 * i + 2) * 15)
        (by push_cast; nlinarith [hr2.1]) (by push_cast; nlinarith)
      constructor
      · exact_mod_cast Int.cast_le.mpr hb.1
      · exact_mod_cast Int.cast_le.mpr hb.2
    · have hb := jsRound_bounds 0 101 (rand (5 * i + 3) * 100)
        (by push_cast; nlinarith [hr3.1]) (by push_cast; nlinarith)
      have hb2 : jsRound (rand (5 * i + 3) * 100) ≤ 100 := by
        have := (jsRound_bounds 0 100 (rand (5 * i + 3) * 100)
          (by push_cast; nlinarith [hr3.1]) (by push_cast; nlinarith)).2
        exact this
      constructor
      · exact_mod_cast Int.cast_le.mpr hb.1
      · exact_mod_cast Int.cast_le.mpr hb2
    · have hb := jsRound_bounds 40 80 (40 + rand (5 * i + 4) * 40)
        (by push_cast; nlinarith [hr4.1]) (by push_cast; nlinarith)
      constructor
      · exact_mod_cast Int.cast_le.mpr hb.1
      · exact_mod_cast Int.cast_le.mpr hb.2
    · refine ⟨50 + rand (5 * i) * 30, (rand (5 * i + 1) - 0.5) * 10,
        by nlinarith [hr0.1], by nlinarith, by nlinarith [hr1.1], by nlinarith [hr1.2], rfl⟩

/-- C4 counterexample: a successful provider response whose hourly horizon
covers only the first slot yields 1 sample — neither 5 samples nor the mock
fallback (which always has 5). -/
theorem fetchWeatherData_contract_counterexample :
    (fetchWeatherData (some ⟨[3600000], [60], [0], [5], [50], [0]⟩) "loc" 1
      (fun _ => 0)).length = 1 ∧
    (generateMockWeather "loc" 1 (fun _ => 0)).length = 5 ∧
    (1 : Nat) ≠ 5 := by
  refine ⟨rfl, rfl, by omega⟩

/-- C4 witness at a concrete input. -/
theorem fetchWeatherData_contract_witness :
    (∀ data : HourlyData,
      (fetchWeatherData (some data) "loc" 0 (fun _ => 1/2)).length ≤ 5 ∧
      ((∀ i : Nat, i < 5 →
          (data.time.findIdx? (fun t => decide (0 + (i : Int) * 3600000 ≤ t))).isSome) →
        (fetchWeatherData (some data) "loc" 0 (fun _ => 1/2)).length = 5)) ∧
    fetchWeatherData none "loc" 0 (fun _ => 1/2) =
      generateMockWeather "loc" 0 (fun _ => 1/2) ∧
    (generateMockWeather "loc" 0 (fun _ => 1/2)).length = 5 ∧
    (∀ w ∈ generateMockWeather "loc" 0 (fun _ => 1/2),
      ((5 : ℚ) ≤ w.windSpeed ∧ w.windSpeed ≤ 20) ∧
      ((0 : ℚ) ≤ w.precipitationChance ∧ w.precipitationChance ≤ 100) ∧
      ((40 : ℚ) ≤ w.humidity ∧ w.humidity ≤ 80) ∧
      (∃ base jitter : ℚ, 50 ≤ base ∧ base < 80 ∧ -5 ≤ jitter ∧ jitter < 5 ∧
        w.temperature = (jsRound (base + jitter) : ℚ))) :=
  fetchWeatherData_contract "loc" 0 (fun _ => 1/2) (fun _ => by norm_num)

/-- C10 witness at a concrete input. -/
theorem generateRecommendations_known_nonempty_witness :
    ∃ recs, generateRecommendations "run"
      [⟨"p", 0, 50, none, none, 5, 0, 50, 0, false⟩] "easy" =
      some (RecResult.items recs) ∧ recs ≠ [] :=
  (generateRecommendations_known_nonempty "run" (by decide)
    [⟨"p", 0, 50, none, none, 5, 0, 50, 0, false⟩] (by simp) "easy" (by decide)).2

end WhatToWear
